import Mathlib

/-
Verification of the react-quiz state-transition reducer.

The data model and the reducer are translated from the source
(src/README.md, the App.js reducer excerpt; src/src/components/NextButton.js
for the presentation-layer guard).  JavaScript numbers are embedded as Int
(all arithmetic here is small-integer), the JS value null as Option.none,
and a thrown exception as Except.error.  Two JS peculiarities are kept
faithfully:
  - in the tick branch, state.secondsRemaining - 1 with secondsRemaining
    equal to null evaluates in JS to -1 (null coerces to 0), embedded as
    Option.getD 0 before the subtraction;
  - in the newAnswer branch, state.questions.at(state.index) on an
    out-of-range index is undefined, and reading .correctOption from it
    throws a TypeError, embedded as Except.error.
-/

namespace ReactQuiz

/-- A question record, from public/questions.json via the dataReceived payload. -/
structure Question where
  question : String
  options : List String
  correctOption : Int
  points : Int
  deriving DecidableEq, Repr

/-- The status field of the quiz state, one of the five string literals in the source. -/
inductive Status where
  | loading
  | error
  | ready
  | active
  | finished
  deriving DecidableEq, Repr

/-- The reducer state, field for field the initialState object shape of the source. -/
structure QuizState where
  questions : List Question
  status : Status
  index : Nat
  answer : Option Int
  points : Int
  highscore : Int
  secondsRemaining : Option Int
  deriving DecidableEq, Repr

/-- A dispatched event.  The eight declared constructors carry the payloads the
source reads; the unknown constructor stands for any action object whose type
string is outside the declared set and records that string. -/
inductive Action where
  | dataReceived (payload : List Question)
  | dataFailed
  | start
  | newAnswer (payload : Int)
  | nextQuestion
  | finish
  | restart
  | tick
  | unknown (ty : String)
  deriving DecidableEq, Repr

/-- The eight action type strings the reducer switch declares. -/
def declaredActionTypes : List String :=
  ["dataReceived", "dataFailed", "start", "newAnswer", "nextQuestion",
   "finish", "restart", "tick"]

/-- True on the eight declared constructors, false on unknown. -/
def Action.isDeclared : Action → Bool
  | .unknown _ => false
  | _ => true

/-- SECS_PER_QUESTION from the source. -/
def SECS_PER_QUESTION : Int := 30

/-- initialState from the source. -/
def initialState : QuizState :=
  { questions := []
    status := .loading
    index := 0
    answer := none
    points := 0
    highscore := 0
    secondsRemaining := none }

/-- The reducer, translated case by case from the source.  A JS throw is
Except.error: the default case throws Error with message Action is unknown,
and the newAnswer case throws a TypeError when questions.at(index) is
undefined. -/
def reducer (state : QuizState) (action : Action) : Except String QuizState :=
  match action with
  | .dataReceived payload =>
      .ok { state with questions := payload, status := .ready }
  | .dataFailed =>
      .ok { state with status := .error }
  | .start =>
      .ok { state with
              status := .active
              secondsRemaining :=
                some ((state.questions.length : Int) * SECS_PER_QUESTION) }
  | .newAnswer payload =>
      match state.questions.get? state.index with
      | none => .error "TypeError: cannot read correctOption of undefined"
      | some question =>
          .ok { state with
                  answer := some payload
                  points :=
                    if payload = question.correctOption then
                      state.points + question.points
                    else
                      state.points }
  | .nextQuestion =>
      .ok { state with index := state.index + 1, answer := none }
  | .finish =>
      .ok { state with
              status := .finished
              highscore := max state.points state.highscore }
  | .restart =>
      .ok { initialState with
              questions := state.questions
              highscore := state.highscore
              status := .ready }
  | .tick =>
      let next := state.secondsRemaining.getD 0 - 1
      .ok { state with
              secondsRemaining := some next
              status := if next ≤ 0 then .finished else state.status }
  | .unknown _ =>
      .error "Action is unknown"

/-- Sequential dispatch of a list of actions; a throw aborts the run. -/
def applyActions : QuizState → List Action → Except String QuizState
  | s, [] => .ok s
  | s, a :: rest =>
      match reducer s a with
      | .ok t => applyActions t rest
      | .error e => .error e

/-- A state is reachable when some action sequence leads to it from initialState. -/
def Reachable (s : QuizState) : Prop :=
  ∃ acts : List Action, applyActions initialState acts = Except.ok s

/-- The action the NextButton component dispatches, from
src/src/components/NextButton.js: no button while answer is null, the
nextQuestion button strictly before the last question, the finish button on
the last question.  Arguments mirror the props answer, numQuestions, index. -/
def nextButton (answer : Option Int) (numQuestions index : Int) : Option Action :=
  if answer = none then none
  else if index < numQuestions - 1 then some .nextQuestion
  else if index = numQuestions - 1 then some .finish
  else none

/-- A concrete active state one second before timeout, holding 5 unclaimed points. -/
def s1 : QuizState :=
  { questions := [], status := .active, index := 0, answer := none,
    points := 5, highscore := 0, secondsRemaining := some 1 }

/-- A concrete finished state whose countdown has reached zero. -/
def sF : QuizState :=
  { questions := [], status := .finished, index := 0, answer := none,
    points := 7, highscore := 7, secondsRemaining := some 0 }

/-- A concrete question giving 10 points for option 0. -/
def q0 : Question :=
  { question := "q0", options := ["a", "b", "c", "d"],
    correctOption := 0, points := 10 }

/-- A concrete question matching scenario D: correct option 2, worth 15 points. -/
def qD : Question :=
  { question := "qd", options := ["o0", "o1", "o2", "o3"],
    correctOption := 2, points := 15 }

/-- A concrete active state on the question qD with no answer selected yet. -/
def sD : QuizState :=
  { questions := [qD], status := .active, index := 0, answer := none,
    points := 3, highscore := 4, secondsRemaining := some 20 }

/-- Claim C1, code evaluated at the failing input: from the active state s1 with
points = 5, highscore = 0 and one second remaining, tick drives the status to
finished but leaves highscore at 0 instead of max(points, highscore) = 5, so
the highScore update of the finish branch is not applied on the tick-triggered
transition to finished. -/
theorem tick_timeout_skips_highscore_update :
    reducer s1 Action.tick =
      Except.ok { s1 with secondsRemaining := some 0, status := Status.finished } ∧
    (reducer s1 Action.tick).map QuizState.highscore = Except.ok 0 ∧
    max s1.points s1.highscore = 5 :=
  ⟨rfl, rfl, by decide⟩

/-- Claim C5: from an active state with no answer selected and the current index
in range, newAnswer(c) records c as the answer, adds the current question's
point value to points exactly when c is its correct option, and leaves the
status active and every other field unchanged. -/
theorem newAnswer_scores (s : QuizState) (c : Int) (q : Question)
    (hst : s.status = Status.active) (_hans : s.answer = none)
    (hq : s.questions.get? s.index = some q) :
    ∃ t, reducer s (Action.newAnswer c) = Except.ok t ∧
      t.answer = some c ∧
      t.points = (if c = q.correctOption then s.points + q.points else s.points) ∧
      t.status = Status.active ∧
      t.index = s.index ∧ t.questions = s.questions ∧
      t.highscore = s.highscore ∧ t.secondsRemaining = s.secondsRemaining := by
  have h : reducer s (Action.newAnswer c) = Except.ok
      { s with answer := some c
               points := if c = q.correctOption then s.points + q.points else s.points } := by
    rw [List.get?_eq_getElem?] at hq
    simp [reducer, hq]
  exact ⟨_, h, rfl, rfl, hst, rfl, rfl, rfl, rfl⟩

/-- Witness for C5 at scenario D: in the state sD whose current question has
correct option 2 and point value 15, newAnswer(2) yields the 15 extra points. -/
theorem newAnswer_scores_witness :
    sD.status = Status.active ∧ sD.answer = none ∧
    sD.questions.get? sD.index = some qD ∧
    (∃ t, reducer sD (Action.newAnswer 2) = Except.ok t ∧
      t.answer = some 2 ∧
      t.points = (if (2 : Int) = qD.correctOption then sD.points + qD.points else sD.points) ∧
      t.status = Status.active ∧
      t.index = sD.index ∧ t.questions = sD.questions ∧
      t.highscore = sD.highscore ∧ t.secondsRemaining = sD.secondsRemaining) :=
  ⟨rfl, rfl, rfl, newAnswer_scores sD 2 qD rfl rfl rfl⟩

/-- Claim C6: from an active state, finish sets the status to finished and the
highscore to max(points, highscore) leaving every other field unchanged, and
after any successful finish dispatch the new highscore equals
max(old highscore, old points). -/
theorem finish_sets_highscore :
    (∀ s : QuizState, s.status = Status.active →
      reducer s Action.finish =
        Except.ok { s with status := Status.finished,
                           highscore := max s.points s.highscore }) ∧
    (∀ s t : QuizState, reducer s Action.finish = Except.ok t →
      t.highscore = max s.highscore s.points) := by
  constructor
  · intro s _
    rfl
  · intro s t h
    simp only [reducer, Except.ok.injEq] at h
    subst h
    exact max_comm s.points s.highscore

/-- Witness for C6 at the concrete active state s1. -/
theorem finish_sets_highscore_witness :
    s1.status = Status.active ∧
    reducer s1 Action.finish =
      Except.ok { s1 with status := Status.finished,
                          highscore := max s1.points s1.highscore } ∧
    ({ s1 with status := Status.finished,
               highscore := max s1.points s1.highscore } : QuizState).highscore
      = max s1.highscore s1.points :=
  ⟨rfl, finish_sets_highscore.1 s1 rfl,
   finish_sets_highscore.2 s1 _ (finish_sets_highscore.1 s1 rfl)⟩

/-- Claim C7: dispatching an action whose type string is outside the declared
set hits the default case and throws the Action-is-unknown error, so the
dispatch produces no new state. -/
theorem unknown_action_throws (s : QuizState) (ty : String)
    (_h : ty ∉ declaredActionTypes) :
    reducer s (Action.unknown ty) = Except.error "Action is unknown" := rfl

/-- Witness for C7: a bogus action type on the initial state. -/
theorem unknown_action_throws_witness :
    "bogus" ∉ declaredActionTypes ∧
    reducer initialState (Action.unknown "bogus") = Except.error "Action is unknown" :=
  ⟨by decide, unknown_action_throws initialState "bogus" (by decide)⟩

/-- Claim C10: nextQuestion increments the index by exactly 1 and clears the
answer, leaving every other field unchanged; the reducer itself applies no
upper bound, so on the last question the index reaches questions.length while
the status stays active; the only guard is the NextButton component, which
renders the finish dispatch instead of nextQuestion on the last question. -/
theorem nextQuestion_no_upper_guard :
    (∀ s : QuizState, reducer s Action.nextQuestion =
        Except.ok { s with index := s.index + 1, answer := none }) ∧
    (∀ s : QuizState, s.status = Status.active → 0 < s.questions.length →
        s.index = s.questions.length - 1 →
        ∃ t, reducer s Action.nextQuestion = Except.ok t ∧
          t.index = s.questions.length ∧ t.status = Status.active) ∧
    (∀ (ans : Option Int) (n i : Int), ans ≠ none → i = n - 1 →
        nextButton ans n i = some Action.finish) ∧
    (∀ (ans : Option Int) (n i : Int), ans ≠ none → i < n - 1 →
        nextButton ans n i = some Action.nextQuestion) := by
  refine ⟨fun s => rfl, ?_, ?_, ?_⟩
  · intro s hst hlen hidx
    exact ⟨{ s with index := s.index + 1, answer := none }, rfl,
           by show s.index + 1 = s.questions.length; omega, hst⟩
  · intro ans n i hans hi
    simp [nextButton, hans, hi]
  · intro ans n i hans hi
    simp [nextButton, hans, hi]

/-- Witness for C10 at the concrete state sD, whose index 0 is the last of its
single question. -/
theorem nextQuestion_no_upper_guard_witness :
    reducer sD Action.nextQuestion =
      Except.ok { sD with index := sD.index + 1, answer := none } ∧
    (sD.status = Status.active ∧ 0 < sD.questions.length ∧
      sD.index = sD.questions.length - 1 ∧
      ∃ t, reducer sD Action.nextQuestion = Except.ok t ∧
        t.index = sD.questions.length ∧ t.status = Status.active) ∧
    nextButton (some 0) 5 4 = some Action.finish ∧
    nextButton (some 0) 5 2 = some Action.nextQuestion :=
  ⟨nextQuestion_no_upper_guard.1 sD,
   ⟨rfl, by decide, rfl,
    nextQuestion_no_upper_guard.2.1 sD rfl (by decide) rfl⟩,
   nextQuestion_no_upper_guard.2.2.1 (some 0) 5 4 (by decide) (by decide),
   nextQuestion_no_upper_guard.2.2.2 (some 0) 5 2 (by decide) (by decide)⟩

/-- Helper: a run of n plus 1 ticks from an active state whose countdown reads
exactly n plus 1 seconds ends with status finished, secondsRemaining 0, and
points and highscore untouched. -/
lemma tick_run_finish (n : Nat) :
    ∀ s : QuizState, s.status = Status.active →
      s.secondsRemaining = some ((n : Int) + 1) →
      ∃ t, applyActions s (List.replicate (n + 1) Action.tick) = Except.ok t ∧
        t.status = Status.finished ∧ t.secondsRemaining = some 0 ∧
        t.points = s.points ∧ t.highscore = s.highscore := by
  induction n with
  | zero =>
    intro s _ hsr
    refine ⟨{ s with secondsRemaining := some 0, status := Status.finished },
            ?_, rfl, rfl, rfl, rfl⟩
    simp [applyActions, reducer, hsr]
  | succ m ih =>
    intro s hst hsr
    have harith : (((m + 1 : Nat) : Int) + 1) - 1 = (m : Int) + 1 := by
      push_cast
      ring
    have hstep : reducer s Action.tick =
        Except.ok { s with secondsRemaining := some ((m : Int) + 1) } := by
      simp only [reducer, hsr, Option.getD_some]
      rw [harith, if_neg (by omega : ¬ ((m : Int) + 1 ≤ 0))]
    obtain ⟨t, h1, h2, h3, h4, h5⟩ :=
      ih { s with secondsRemaining := some ((m : Int) + 1) } hst rfl
    refine ⟨t, ?_, h2, h3, h4, h5⟩
    rw [List.replicate_succ]
    simp only [applyActions, hstep]
    exact h1

/-- Claim C2, counterexample to the claim as stated: in the finished state sF
with secondsRemaining 0, one further tick changes the state, decrementing
secondsRemaining to -1, so tick is not a no-op once finished. -/
theorem tick_not_noop_when_finished :
    reducer sF Action.tick = Except.ok { sF with secondsRemaining := some (-1) } ∧
    ({ sF with secondsRemaining := some (-1) } : QuizState) ≠ sF := by
  constructor
  · rfl
  · decide

/-- Claim C2 amended: from a finished state whose countdown has reached a value
at most 0, every further tick keeps decrementing secondsRemaining (by n after n
ticks) while the status stays finished and points, highscore and all remaining
fields are unchanged. -/
theorem tick_finished_keeps_decrementing (n : Nat) :
    ∀ (s : QuizState) (r : Int), s.status = Status.finished →
      s.secondsRemaining = some r → r ≤ 0 →
      ∃ t, applyActions s (List.replicate n Action.tick) = Except.ok t ∧
        t.secondsRemaining = some (r - n) ∧ t.status = Status.finished ∧
        t.points = s.points ∧ t.highscore = s.highscore ∧
        t.questions = s.questions ∧ t.index = s.index ∧ t.answer = s.answer := by
  induction n with
  | zero =>
    intro s r hst hsr _
    exact ⟨s, rfl, by rw [hsr]; norm_num, hst, rfl, rfl, rfl, rfl, rfl⟩
  | succ m ih =>
    intro s r hst hsr hr
    have hstep : reducer s Action.tick =
        Except.ok { s with secondsRemaining := some (r - 1),
                           status := Status.finished } := by
      simp only [reducer, hsr, Option.getD_some]
      rw [if_pos (by omega : r - 1 ≤ 0)]
    obtain ⟨t, h1, h2, h3, h4, h5, h6, h7, h8⟩ :=
      ih { s with secondsRemaining := some (r - 1), status := Status.finished }
         (r - 1) rfl rfl (by omega)
    refine ⟨t, ?_, ?_, h3, h4, h5, h6, h7, h8⟩
    · rw [List.replicate_succ]
      simp only [applyActions, hstep]
      exact h1
    · rw [h2]
      congr 1
      push_cast
      ring

/-- Witness for the amended C2: two further ticks on the finished state sF reach
secondsRemaining -2 with everything else unchanged. -/
theorem tick_finished_keeps_decrementing_witness :
    sF.status = Status.finished ∧ sF.secondsRemaining = some 0 ∧ (0 : Int) ≤ 0 ∧
    (∃ t, applyActions sF (List.replicate 2 Action.tick) = Except.ok t ∧
      t.secondsRemaining = some ((0 : Int) - (2 : Nat)) ∧ t.status = Status.finished ∧
      t.points = sF.points ∧ t.highscore = sF.highscore ∧
      t.questions = sF.questions ∧ t.index = sF.index ∧ t.answer = sF.answer) :=
  ⟨rfl, rfl, le_refl 0, tick_finished_keeps_decrementing 2 sF 0 rfl rfl (le_refl 0)⟩

/-- Claim C4: SECS_PER_QUESTION is 30; start on a ready state yields status
active with secondsRemaining = questions.length times SECS_PER_QUESTION; and
from a ready state with 3 questions, start followed by exactly 90 ticks and no
other event ends with status finished. -/
theorem start_timer_and_timeout :
    SECS_PER_QUESTION = 30 ∧
    (∀ s : QuizState, s.status = Status.ready →
      reducer s Action.start =
        Except.ok { s with status := Status.active,
                           secondsRemaining :=
                             some ((s.questions.length : Int) * SECS_PER_QUESTION) }) ∧
    (∀ s : QuizState, s.status = Status.ready → s.questions.length = 3 →
      ∃ t, applyActions s (Action.start :: List.replicate 90 Action.tick) =
          Except.ok t ∧
        t.status = Status.finished ∧ t.secondsRemaining = some 0) := by
  refine ⟨rfl, fun s _ => rfl, ?_⟩
  intro s hst hlen
  have hstart : reducer s Action.start =
      Except.ok { s with status := Status.active, secondsRemaining := some 90 } := by
    simp [reducer, hlen, SECS_PER_QUESTION]
  obtain ⟨t, h1, h2, h3, _, _⟩ := tick_run_finish 89
    { s with status := Status.active, secondsRemaining := some 90 } rfl (by norm_num)
  refine ⟨t, ?_, h2, h3⟩
  simp only [applyActions, hstart]
  exact h1

/-- Concrete ready state holding 3 loaded questions. -/
def readyState3 : QuizState :=
  { questions := [q0, q0, q0], status := .ready, index := 0, answer := none,
    points := 0, highscore := 0, secondsRemaining := none }

/-- Witness for C4 at the concrete ready state with 3 questions. -/
theorem start_timer_and_timeout_witness :
    readyState3.status = Status.ready ∧ readyState3.questions.length = 3 ∧
    reducer readyState3 Action.start =
      Except.ok { readyState3 with
                    status := Status.active,
                    secondsRemaining :=
                      some ((readyState3.questions.length : Int) * SECS_PER_QUESTION) } ∧
    (∃ t, applyActions readyState3 (Action.start :: List.replicate 90 Action.tick) =
        Except.ok t ∧
      t.status = Status.finished ∧ t.secondsRemaining = some 0) :=
  ⟨rfl, rfl, start_timer_and_timeout.2.1 readyState3 rfl,
   start_timer_and_timeout.2.2 readyState3 rfl rfl⟩

/-- The concrete run in which the only playthrough scores 10 points and then
times out: load one question worth 10 points, start, answer it correctly, and
let the countdown of 30 seconds expire. -/
def timeoutTrace : List Action :=
  [Action.dataReceived [q0], Action.start, Action.newAnswer 0] ++
    List.replicate 30 Action.tick

/-- Claim C3, counterexample to the claim as stated: the timeout run reaches a
finished state whose only playthrough totalled 10 points, yet restart leaves
highscore at 0, not at the maximum 10 of the prior playthrough totals, because
the tick-triggered finish never folded points into highscore. -/
theorem restart_after_timeout_loses_points :
    (applyActions initialState timeoutTrace).map QuizState.status =
      Except.ok Status.finished ∧
    (applyActions initialState timeoutTrace).map QuizState.points = Except.ok 10 ∧
    (applyActions initialState (timeoutTrace ++ [Action.restart])).map
        QuizState.highscore = Except.ok 0 ∧
    (10 : Int) ≠ 0 :=
  ⟨rfl, rfl, rfl, by decide⟩

/-- Claim C3 amended: from any reachable finished state, restart yields a state
whose index, points, answer and secondsRemaining equal their initialState
values, whose status is ready, and whose questions and highscore are carried
over unchanged from the pre-restart state (the carried highscore reflects only
playthroughs ended by an explicit finish event, not tick timeouts). -/
theorem restart_resets_to_initial (s : QuizState) (_hreach : Reachable s)
    (_hst : s.status = Status.finished) :
    ∃ t, reducer s Action.restart = Except.ok t ∧
      t.status = Status.ready ∧ t.questions = s.questions ∧
      t.highscore = s.highscore ∧
      t.index = initialState.index ∧ t.points = initialState.points ∧
      t.answer = initialState.answer ∧
      t.secondsRemaining = initialState.secondsRemaining :=
  ⟨_, rfl, rfl, rfl, rfl, rfl, rfl, rfl, rfl⟩

/-- The finished state reached by loading q0, starting, answering correctly and
dispatching finish. -/
def sFin : QuizState :=
  { questions := [q0], status := .finished, index := 0, answer := some 0,
    points := 10, highscore := 10, secondsRemaining := some 30 }

/-- Witness for the amended C3 at the reachable finished state sFin. -/
theorem restart_resets_to_initial_witness :
    applyActions initialState
        [Action.dataReceived [q0], Action.start, Action.newAnswer 0, Action.finish] =
      Except.ok sFin ∧
    sFin.status = Status.finished ∧
    (∃ t, reducer sFin Action.restart = Except.ok t ∧
      t.status = Status.ready ∧ t.questions = sFin.questions ∧
      t.highscore = sFin.highscore ∧
      t.index = initialState.index ∧ t.points = initialState.points ∧
      t.answer = initialState.answer ∧
      t.secondsRemaining = initialState.secondsRemaining) :=
  ⟨rfl, rfl,
   restart_resets_to_initial sFin
     ⟨[Action.dataReceived [q0], Action.start, Action.newAnswer 0, Action.finish], rfl⟩
     rfl⟩

/-- Claim C8: when every loaded question has a nonnegative point value, any
successful dispatch other than restart never decreases points, and any
successful dispatch at all (restart included) never decreases highscore. -/
theorem points_highscore_monotone (s t : QuizState) (a : Action)
    (hpos : ∀ q ∈ s.questions, 0 ≤ q.points)
    (h : reducer s a = Except.ok t) :
    (a ≠ Action.restart → s.points ≤ t.points) ∧ s.highscore ≤ t.highscore := by
  cases a with
  | dataReceived payload =>
    simp only [reducer, Except.ok.injEq] at h
    subst h
    exact ⟨fun _ => le_refl _, le_refl _⟩
  | dataFailed =>
    simp only [reducer, Except.ok.injEq] at h
    subst h
    exact ⟨fun _ => le_refl _, le_refl _⟩
  | start =>
    simp only [reducer, Except.ok.injEq] at h
    subst h
    exact ⟨fun _ => le_refl _, le_refl _⟩
  | newAnswer c =>
    simp only [reducer] at h
    cases hq : s.questions.get? s.index with
    | none =>
      rw [hq] at h
      exact Except.noConfusion h
    | some q =>
      rw [hq] at h
      simp only [Except.ok.injEq] at h
      subst h
      refine ⟨fun _ => ?_, le_refl _⟩
      show s.points ≤ (if c = q.correctOption then s.points + q.points else s.points)
      have hq_pos : 0 ≤ q.points := hpos q (List.get?_mem hq)
      split <;> omega
  | nextQuestion =>
    simp only [reducer, Except.ok.injEq] at h
    subst h
    exact ⟨fun _ => le_refl _, le_refl _⟩
  | finish =>
    simp only [reducer, Except.ok.injEq] at h
    subst h
    exact ⟨fun _ => le_refl _, le_max_right _ _⟩
  | restart =>
    simp only [reducer, Except.ok.injEq] at h
    subst h
    exact ⟨fun hne => absurd rfl hne, le_refl _⟩
  | tick =>
    simp only [reducer, Except.ok.injEq] at h
    subst h
    exact ⟨fun _ => le_refl _, le_refl _⟩
  | unknown ty =>
    exact Except.noConfusion h

/-- Witness for C8: the finish dispatch on the concrete state sD. -/
theorem points_highscore_monotone_witness :
    (∀ q ∈ sD.questions, 0 ≤ q.points) ∧
    reducer sD Action.finish =
      Except.ok { sD with status := Status.finished,
                          highscore := max sD.points sD.highscore } ∧
    ((Action.finish ≠ Action.restart →
        sD.points ≤ ({ sD with status := Status.finished,
                               highscore := max sD.points sD.highscore } : QuizState).points) ∧
      sD.highscore ≤ ({ sD with status := Status.finished,
                                highscore := max sD.points sD.highscore } : QuizState).highscore) :=
  ⟨by decide, rfl,
   points_highscore_monotone sD
     { sD with status := Status.finished, highscore := max sD.points sD.highscore }
     Action.finish (by decide) rfl⟩

/-- Claim C9, counterexample to the claim as stated: the reducer is not total
over the declared event set, because newAnswer on the initial state (whose
question list is empty, so questions.at(0) is undefined) throws a TypeError
instead of returning a next state. -/
theorem newAnswer_out_of_range_throws :
    reducer initialState (Action.newAnswer 0) =
      Except.error "TypeError: cannot read correctOption of undefined" := rfl

/-- Claim C9 amended: the reducer is a pure deterministic function of the pair
of state and action, and it returns a next state on every declared action with
the single exception of newAnswer dispatched while the current index is out of
range of the question list, where it throws a TypeError. -/
theorem reducer_deterministic_total_amended :
    (∀ (s s2 : QuizState) (a a2 : Action), s = s2 → a = a2 →
      reducer s a = reducer s2 a2) ∧
    (∀ (s : QuizState) (a : Action), a.isDeclared = true →
      (∀ c : Int, a = Action.newAnswer c → s.index < s.questions.length) →
      ∃ t, reducer s a = Except.ok t) := by
  refine ⟨fun s s2 a a2 hs ha => by rw [hs, ha], ?_⟩
  intro s a hdecl hidx
  cases a with
  | dataReceived payload => exact ⟨_, rfl⟩
  | dataFailed => exact ⟨_, rfl⟩
  | start => exact ⟨_, rfl⟩
  | newAnswer c =>
    have hlt := hidx c rfl
    cases hq : s.questions.get? s.index with
    | none => exact absurd (List.get?_eq_none.mp hq) (by omega)
    | some q =>
      rw [List.get?_eq_getElem?] at hq
      have h : reducer s (Action.newAnswer c) = Except.ok
          { s with answer := some c
                   points := if c = q.correctOption then s.points + q.points
                             else s.points } := by
        simp [reducer, hq]
      exact ⟨_, h⟩
  | nextQuestion => exact ⟨_, rfl⟩
  | finish => exact ⟨_, rfl⟩
  | restart => exact ⟨_, rfl⟩
  | tick => exact ⟨_, rfl⟩
  | unknown ty => simp [Action.isDeclared] at hdecl

/-- Witness for the amended C9: newAnswer 0 on the in-range state sD returns a
state. -/
theorem reducer_deterministic_total_amended_witness :
    (Action.newAnswer 0).isDeclared = true ∧
    sD.index < sD.questions.length ∧
    (∃ t, reducer sD (Action.newAnswer 0) = Except.ok t) :=
  ⟨rfl, by decide,
   reducer_deterministic_total_amended.2 sD (Action.newAnswer 0) rfl
     (fun _ _ => by decide)⟩

end ReactQuiz
